import Mathlib

/-!
Verification of the session-authentication core of the realtime-chat-app
monorepo.  The development shallowly embeds, from the source:

* the database-backed login / refresh / logout handlers and the custom
  `authenticate` middleware of the Hono guide (src/unnamed/part_000,
  sections 9-10);
* the in-memory "full production example" auth routes of section 28 of the
  same file (module-level `refreshTokens` Set);
* the placeholder login route of src/apps/backend/src/routes/auth.ts;
* the t3-env configuration of the config package (src/unnamed/part_001).

JWT strings are modelled by their content: a token value is its signed
payload together with the key it was signed with.  This is faithful for
HS256 tokens, whose string form is a deterministic, injective encoding of
(header, payload) plus a signature determined by the key.  bcrypt digests
are modelled symbolically by the `Stored` type: `Stored.bcrypt salt v` is
the digest of `v` computed with a given salt, `Stored.raw v` is the value
itself stored unhashed.
-/

namespace ChatAuth

/-- A value as it sits in storage: either raw, or as a salted one-way
bcrypt digest of the original value. -/
inductive Stored (α : Type) where
  | raw : α → Stored α
  | bcrypt : Nat → α → Stored α
deriving DecidableEq

/-- JWT claims as used by the handlers: `sub`, the custom `type` claim
(`typ` here, set to "refresh" on refresh tokens and absent on access
tokens), optional `email` and `role`, and the `iat`/`exp` timestamps in
seconds. -/
structure Payload where
  sub : String
  typ : Option String
  email : Option String
  role : Option String
  iat : Nat
  exp : Nat
deriving DecidableEq

/-- A signed JWT, modelled by its payload and signing key (see the header
comment: the HS256 string is a deterministic injective function of these). -/
structure Token where
  payload : Payload
  key : String
deriving DecidableEq

/-- The `JWT_SECRET` environment value (access-token key). -/
def JWT_SECRET : String := "supersecretdevkey-changeinproduction"

/-- The `JWT_REFRESH_SECRET` environment value used by the database-backed
handlers; a key distinct from `JWT_SECRET`. -/
def JWT_REFRESH_SECRET : String := "refresh-secret-dev"

/-- Failure kinds of `verify` in hono/jwt relevant to this code:
`JwtTokenSignatureMismatched` (wrong key) and `JwtTokenExpired`. -/
inductive VerifyErr where
  | signatureInvalid
  | expired
deriving DecidableEq

/-- `verify(token, key)` of hono/jwt at time `nowSec` (seconds): the
claims (`exp`) are validated before the signature is checked, as the
library does, so an expired token fails with the Expired error even when
presented to a verifier holding a different key. -/
def verifyTok (t : Token) (key : String) (nowSec : Nat) : Except VerifyErr Payload :=
  if t.payload.exp ≤ nowSec then .error .expired
  else if t.key ≠ key then .error .signatureInvalid
  else .ok t.payload

/-! ## Database-backed model (part_000, sections 9-10)

The Prisma tables `user` and `refreshToken`, and the handlers
`POST /auth/login`, `POST /auth/refresh`, `POST /auth/logout`.  Time is
carried in milliseconds (`Date.now()`); JWT timestamps use
`Math.floor(Date.now() / 1000)`, i.e. `nowMs / 1000`. -/

/-- A `user` row: `passwordHash` is the bcrypt digest of the password. -/
structure User where
  id : String
  email : String
  role : String
  passwordHash : Stored String
deriving DecidableEq

/-- A `refreshToken` row: `tokenHash` is `bcrypt.hash(refreshToken, 10)`,
`expiresAt` is in milliseconds, `revokedAt = none` means not revoked. -/
structure TokenRecord where
  id : Nat
  userId : String
  tokenHash : Stored Token
  expiresAt : Nat
  revokedAt : Option Nat
deriving DecidableEq

/-- The database plus the id / bcrypt-salt sources for newly created rows. -/
structure Db where
  users : List User
  tokens : List TokenRecord
  nextId : Nat
  nextSalt : Nat
deriving DecidableEq

/-- `bcrypt.compare(tok, hash)`: true exactly when `hash` is a bcrypt
digest of `tok` (false on a non-digest string). -/
def bcryptCompare (tok : Token) (h : Stored Token) : Bool :=
  match h with
  | .raw _ => false
  | .bcrypt _ original => tok = original

/-- `bcrypt.compare(password, passwordHash)` for login. -/
def bcryptCompareStr (s : String) (h : Stored String) : Bool :=
  match h with
  | .raw _ => false
  | .bcrypt _ original => s = original

/-- Access-token TTL in seconds (`60 * 15`). -/
def accessTTL : Nat := 900

/-- Refresh-token TTL in seconds (`60 * 60 * 24 * 7`). -/
def refreshTTL : Nat := 604800

/-- The access token signed at login / refresh:
`{ sub, email, role, iat: now, exp: now + 900 }` under `JWT_SECRET`. -/
def mkAccessToken (u : User) (nowSec : Nat) : Token :=
  { payload := { sub := u.id, typ := none, email := some u.email,
                 role := some u.role, iat := nowSec, exp := nowSec + accessTTL },
    key := JWT_SECRET }

/-- The refresh token signed at login / refresh:
`{ sub, type: "refresh", iat: now, exp: now + 604800 }` under
`JWT_REFRESH_SECRET`.  The payload is fully determined by the user id and
the signing second: it contains no random material. -/
def mkRefreshToken (uid : String) (nowSec : Nat) : Token :=
  { payload := { sub := uid, typ := some "refresh", email := none,
                 role := none, iat := nowSec, exp := nowSec + refreshTTL },
    key := JWT_REFRESH_SECRET }

/-- Error responses of the auth handlers (all 401s, distinguished by their
message): "Invalid or expired refresh token" (the verify catch),
"Invalid token type", "Token reuse detected. Please log in again.",
"User not found", "Invalid credentials". -/
inductive ApiError where
  | invalidOrExpired
  | invalidTokenType
  | reuseDetected
  | userNotFound
  | invalidCredentials
deriving DecidableEq

/-- Outcome of login / refresh: a new access / refresh pair or an error. -/
inductive RefreshResult where
  | ok : Token → Token → RefreshResult
  | error : ApiError → RefreshResult
deriving DecidableEq

/-- Whether a handler outcome is a success. -/
def isOk : RefreshResult → Bool
  | .ok _ _ => true
  | .error _ => false

/-- `db.refreshToken.findMany({ where: { userId, expiresAt: { gt: now },
revokedAt: null } })`: the active, unexpired records of a user. -/
def activeFor (db : Db) (uid : String) (nowMs : Nat) : List TokenRecord :=
  db.tokens.filter fun r =>
    decide (r.userId = uid ∧ nowMs < r.expiresAt ∧ r.revokedAt = none)

/-- `db.refreshToken.update({ where: { id }, data: { revokedAt: now } })`:
an unconditional single-row revoke (no check that the row is still
active). -/
def revokeById (db : Db) (rid : Nat) (nowMs : Nat) : Db :=
  { db with tokens := db.tokens.map fun r =>
      if r.id = rid then { r with revokedAt := some nowMs } else r }

/-- `db.refreshToken.updateMany({ where: { userId }, data: { revokedAt:
now } })`: marks every record of the user revoked (the reuse-detection
and logout-everywhere response). -/
def revokeUserAll (db : Db) (uid : String) (nowMs : Nat) : Db :=
  { db with tokens := db.tokens.map fun r =>
      if r.userId = uid then { r with revokedAt := some nowMs } else r }

/-- `db.refreshToken.create` with `tokenHash: bcrypt.hash(tok, 10)` and
`expiresAt: new Date(Date.now() + 7 * 24 * 60 * 60 * 1000)`. -/
def createRecord (db : Db) (uid : String) (tok : Token) (nowMs : Nat) : Db :=
  { db with
    tokens := db.tokens ++
      [{ id := db.nextId, userId := uid, tokenHash := .bcrypt db.nextSalt tok,
         expiresAt := nowMs + refreshTTL * 1000, revokedAt := none }],
    nextId := db.nextId + 1,
    nextSalt := db.nextSalt + 1 }

/-- What the read-only first half of `POST /auth/refresh` (steps 1-4:
verify, type check, candidate `findMany`, bcrypt match loop) decides
before any write happens. -/
inductive Decision where
  | errVerify
  | errType
  | reuse : String → Decision
  | matched : TokenRecord → String → Decision
deriving DecidableEq

/-- Steps 1-4 of `POST /auth/refresh`: verify under `JWT_REFRESH_SECRET`,
check the custom `type` claim, fetch the active unexpired records of the user
and find the first whose stored digest matches the presented token. -/
def refreshDecide (db : Db) (tok : Token) (nowMs : Nat) : Decision :=
  match verifyTok tok JWT_REFRESH_SECRET (nowMs / 1000) with
  | .error _ => .errVerify
  | .ok p =>
    if p.typ ≠ some "refresh" then .errType
    else
      match (activeFor db p.sub nowMs).find? (fun r => bcryptCompare tok r.tokenHash) with
      | none => .reuse p.sub
      | some r => .matched r p.sub

/-- Steps 5-8 of `POST /auth/refresh`, the effectful half: on no match,
`updateMany` revokes every record of the user and the request fails with
reuse detection; on a match, the matched row is revoked (unconditional
update), the user is looked up, and a fresh pair is signed with a new
record created for the new refresh token. -/
def refreshCommit (db : Db) (d : Decision) (nowMs : Nat) : Db × RefreshResult :=
  match d with
  | .errVerify => (db, .error .invalidOrExpired)
  | .errType => (db, .error .invalidTokenType)
  | .reuse uid => (revokeUserAll db uid nowMs, .error .reuseDetected)
  | .matched rec uid =>
    let db1 := revokeById db rec.id nowMs
    match db1.users.find? (fun u => decide (u.id = uid)) with
    | none => (db1, .error .userNotFound)
    | some u =>
      (createRecord db1 u.id (mkRefreshToken u.id (nowMs / 1000)) nowMs,
       .ok (mkAccessToken u (nowMs / 1000)) (mkRefreshToken u.id (nowMs / 1000)))

/-- `POST /auth/refresh` run to completion in isolation. -/
def refresh (db : Db) (tok : Token) (nowMs : Nat) : Db × RefreshResult :=
  refreshCommit db (refreshDecide db tok nowMs) nowMs

/-- Two concurrent `POST /auth/refresh` calls with the same token, with
the interleaving in which both handlers complete their awaited reads
(steps 1-4) before either performs its writes (steps 5-8); returns the
two responses. -/
def raceTwo (db : Db) (tok : Token) (nowMs : Nat) : RefreshResult × RefreshResult :=
  let d1 := refreshDecide db tok nowMs
  let d2 := refreshDecide db tok nowMs
  let s1 := refreshCommit db d1 nowMs
  let s2 := refreshCommit s1.1 d2 nowMs
  (s1.2, s2.2)

/-- `POST /auth/login` (database version): find the user by email, check
the password against the bcrypt hash, sign the pair, persist the refresh
digest of the token. -/
def login (db : Db) (email pw : String) (nowMs : Nat) : Db × RefreshResult :=
  match db.users.find? (fun u => decide (u.email = email)) with
  | none => (db, .error .invalidCredentials)
  | some u =>
    if bcryptCompareStr pw u.passwordHash then
      (createRecord db u.id (mkRefreshToken u.id (nowMs / 1000)) nowMs,
       .ok (mkAccessToken u (nowMs / 1000)) (mkRefreshToken u.id (nowMs / 1000)))
    else (db, .error .invalidCredentials)

/-- The body of `POST /auth/logout` (behind `authenticate`, so `uid` is
the identity of the caller).  With a refresh token in the body: fetch the
unrevoked records of the user, revoke the first whose digest matches, do
nothing if none matches.  Without one: revoke all records of the user.
The response is the 200 message in every case. -/
def logout (db : Db) (uid : String) (body : Option Token) (nowMs : Nat) : Db × String :=
  match body with
  | some tok =>
    match (db.tokens.filter fun r =>
        decide (r.userId = uid ∧ r.revokedAt = none)).find?
        (fun r => bcryptCompare tok r.tokenHash) with
    | none => (db, "Logged out successfully")
    | some rec => (revokeById db rec.id nowMs, "Logged out successfully")
  | none => (revokeUserAll db uid nowMs, "Logged out successfully")

/-! ## AuthGuard: the custom `authenticate` middleware (part_000, §9) -/

/-- The `Authorization` header of an inbound request: absent, present but
not of the form `Bearer <token>`, or carrying a bearer token. -/
inductive AuthHeader where
  | missing
  | notBearer
  | bearer : Token → AuthHeader

/-- Outcome of the middleware: identity attached to the context
(`userId`, `userRole`), or one of the three 401 responses.  The expired
case is the distinguished machine-readable `TOKEN_EXPIRED` response. -/
inductive AuthResult where
  | ok : String → Option String → AuthResult
  | errMissingHeader
  | errTokenExpired
  | errInvalidToken
deriving DecidableEq

/-- `err.message?.includes("expired")`: the hono/jwt `JwtTokenExpired`
message is `token (...) expired`; the signature-mismatch message is
`token(...) signature mismatched`.  So the substring test holds exactly
for the expired error kind. -/
def errMessageMentionsExpired : VerifyErr → Bool
  | .expired => true
  | .signatureInvalid => false

/-- The `authenticate` middleware: reject a missing / malformed header,
verify the bearer token under `JWT_SECRET`, attach `payload.sub` and
`payload.role` on success, map an expired-token error to `TOKEN_EXPIRED`
and every other verify failure to the generic invalid-token response.
No token-class check is performed and no storage is touched. -/
def authenticate (h : AuthHeader) (nowSec : Nat) : AuthResult :=
  match h with
  | .missing => .errMissingHeader
  | .notBearer => .errMissingHeader
  | .bearer t =>
    match verifyTok t JWT_SECRET nowSec with
    | .ok p => .ok p.sub p.role
    | .error e =>
      if errMessageMentionsExpired e then .errTokenExpired else .errInvalidToken

/-! ## In-memory model: the "full production example" (part_000, §28)

Module-level state `const users: any[] = []` and
`const refreshTokens = new Set<string>()`; the Set holds the raw refresh
token strings.  The refresh secret is `JWT_SECRET + "_refresh"`. -/

/-- A user of the §28 example; `passwordHash` is stored as the plain
password ("In production: bcrypt.hash(password, 12)"). -/
structure MemUser where
  id : String
  email : String
  name : String
  passwordHash : String
  role : String
deriving DecidableEq

/-- The module-level state of §28: the users array and the
`refreshTokens` Set (a duplicate-free list of raw tokens). -/
structure MemState where
  users : List MemUser
  refreshTokens : List Token
deriving DecidableEq

/-- `Set.add`: insert if not already present. -/
def setAdd (l : List Token) (t : Token) : List Token :=
  if t ∈ l then l else l ++ [t]

/-- `Set.delete`: remove the element. -/
def setRemove (l : List Token) (t : Token) : List Token :=
  l.filter fun x => decide (x ≠ t)

/-- The access token of §28 (same shape as the database version, signed
with `JWT_SECRET`). -/
def mkMemAccess (u : MemUser) (nowSec : Nat) : Token :=
  { payload := { sub := u.id, typ := none, email := some u.email,
                 role := some u.role, iat := nowSec, exp := nowSec + 900 },
    key := JWT_SECRET }

/-- The refresh token of §28, signed with `JWT_SECRET + "_refresh"`. -/
def mkMemRefresh (uid : String) (nowSec : Nat) : Token :=
  { payload := { sub := uid, typ := some "refresh", email := none,
                 role := none, iat := nowSec, exp := nowSec + 604800 },
    key := JWT_SECRET ++ "_refresh" }

/-- Outcome of the §28 auth routes. -/
inductive MemResult where
  | ok : Token → Token → MemResult
  | errInvalidCredentials
  | errInvalidRefresh
  | errInvalidOrExpired
  | errUserNotFound
deriving DecidableEq

/-- §28 `POST /auth/login`: find the user by email, compare the plain
password, sign the pair and add the raw refresh token to the
`refreshTokens` Set. -/
def memLogin (st : MemState) (email pw : String) (nowSec : Nat) : MemState × MemResult :=
  match st.users.find? (fun u => decide (u.email = email)) with
  | none => (st, .errInvalidCredentials)
  | some u =>
    if u.passwordHash = pw then
      ({ st with refreshTokens := setAdd st.refreshTokens (mkMemRefresh u.id nowSec) },
       .ok (mkMemAccess u nowSec) (mkMemRefresh u.id nowSec))
    else (st, .errInvalidCredentials)

/-- §28 `POST /auth/refresh`: reject a token absent from the Set, verify
it under the refresh secret (the catch also swallows the thrown
"Not a refresh token"), look the user up, then rotate by deleting the old
token from the Set and adding the newly signed one. -/
def memRefresh (st : MemState) (tok : Token) (nowSec : Nat) : MemState × MemResult :=
  if tok ∈ st.refreshTokens then
    match verifyTok tok (JWT_SECRET ++ "_refresh") nowSec with
    | .error _ => (st, .errInvalidOrExpired)
    | .ok p =>
      if p.typ ≠ some "refresh" then (st, .errInvalidOrExpired)
      else
        match st.users.find? (fun u => decide (u.id = p.sub)) with
        | none => (st, .errUserNotFound)
        | some u =>
          ({ st with refreshTokens :=
               setAdd (setRemove st.refreshTokens tok) (mkMemRefresh u.id nowSec) },
           .ok (mkMemAccess u nowSec) (mkMemRefresh u.id nowSec))
  else (st, .errInvalidRefresh)

/-! ## The placeholder login route of the repository
(src/apps/backend/src/routes/auth.ts) -/

/-- The body of `POST /login` as validated by `loginSchema`. -/
structure LoginBody where
  email : String
  password : String
deriving DecidableEq

/-- Abstraction of the zod `.email()` format check (library code; the
handler below never consults the body beyond validation). -/
def emailFormatOk (s : String) : Bool := s.toList.contains '@'

/-- `loginSchema` of the schema package: a well-formed email and a
password of at least 6 characters. -/
def loginSchemaAccepts (b : LoginBody) : Bool :=
  emailFormatOk b.email && decide (6 ≤ b.password.length)

/-- The JSON response of the placeholder `POST /login` handler; `debug`
is `some secretSet` in dev mode and absent otherwise. -/
structure LoginResponse where
  success : Bool
  message : String
  token : String
  debug : Option Bool
deriving DecidableEq

/-- The `POST /login` handler of routes/auth.ts: it reads
`env.JWT_SECRET`, performs no verification and no signing, and returns a
constant success body with the literal token `"placeholder_token"`
(plus `{ secretSet: !!secret }` in dev). -/
def loginHandler (isDev : Bool) (jwtSecret : String) (_b : LoginBody) : LoginResponse :=
  { success := true,
    message := "Login successful",
    token := "placeholder_token",
    debug := if isDev then some (decide (jwtSecret ≠ "")) else none }

/-! ## The config package (src/unnamed/part_001, t3-env) -/

/-- The raw process environment restricted to the recognized variables;
`none` means unset. -/
structure RawEnv where
  PORT : Option String
  NODE_ENV : Option String
  JWT_SECRET : Option String
deriving DecidableEq

/-- `emptyStringAsUndefined: true`: an empty-string variable is treated
as unset before validation. -/
def emptyAsNone : Option String → Option String
  | some "" => none
  | v => v

/-- The validated environment produced by `createEnv`. -/
structure Env where
  PORT : Nat
  NODE_ENV : String
  JWT_SECRET : String
deriving DecidableEq

/-- `PORT: z.coerce.number().default(4000)` (numeric coercion modelled on
naturals). -/
def parsePort (v : Option String) : Option Nat :=
  match emptyAsNone v with
  | none => some 4000
  | some s => s.toNat?

/-- `NODE_ENV: z.enum(["development", "production", "test"])
.default("development")`. -/
def parseNodeEnv (v : Option String) : Option String :=
  match emptyAsNone v with
  | none => some "development"
  | some s =>
    if s = "development" ∨ s = "production" ∨ s = "test" then some s else none

/-- `JWT_SECRET: z.string().min(1).default("secret")`. -/
def parseJwtSecret (v : Option String) : Option String :=
  match emptyAsNone v with
  | none => some "secret"
  | some s => if 1 ≤ s.length then some s else none

/-- `createEnv` over the three recognized variables: all validations must
succeed. -/
def parseEnv (r : RawEnv) : Option Env :=
  match parsePort r.PORT, parseNodeEnv r.NODE_ENV, parseJwtSecret r.JWT_SECRET with
  | some p, some n, some j => some { PORT := p, NODE_ENV := n, JWT_SECRET := j }
  | _, _, _ => none

/-- The exported `config` object derived from the validated env. -/
structure Config where
  port : Nat
  isDev : Bool
  nodeEnv : String
  jwtSecret : String
deriving DecidableEq

/-- `config = { port, isDev: NODE_ENV === "development", nodeEnv,
jwtSecret: env.JWT_SECRET }`. -/
def mkConfig (e : Env) : Config :=
  { port := e.PORT,
    isDev := decide (e.NODE_ENV = "development"),
    nodeEnv := e.NODE_ENV,
    jwtSecret := e.JWT_SECRET }

/-! ## Concrete scenarios used by counterexamples and witnesses -/

/-- A user row with a bcrypt-hashed password. -/
def u0 : User := { id := "u1", email := "a@b.c", role := "user", passwordHash := .bcrypt 0 "pw" }

/-- A database holding only `u0`, before any login. -/
def dbInit : Db := { users := [u0], tokens := [], nextId := 0, nextSalt := 0 }

/-- A refresh token of `u0` issued at second 0. -/
def tokA : Token := mkRefreshToken "u1" 0

/-- The session record persisted for `tokA`. -/
def recA : TokenRecord :=
  { id := 0, userId := "u1", tokenHash := .bcrypt 0 tokA,
    expiresAt := 604800000, revokedAt := none }

/-- The database after `tokA` was issued: one active record for `u0`. -/
def dbA : Db := { users := [u0], tokens := [recA], nextId := 1, nextSalt := 1 }

/-- A user of the §28 in-memory example. -/
def u0m : MemUser :=
  { id := "u1", email := "a@b.c", name := "Al", passwordHash := "pw", role := "user" }

/-- The §28 module state before any login. -/
def st0 : MemState := { users := [u0m], refreshTokens := [] }

/-- The §28 module state after a refresh token was issued at second 0. -/
def stC5 : MemState := { users := [u0m], refreshTokens := [mkMemRefresh "u1" 0] }

example : isOk (refresh dbA tokA 5000).2 = true := by decide

example : (refresh dbA tokA 5000).2 = .ok (mkAccessToken u0 5) (mkRefreshToken "u1" 5) := by decide

example : isOk (refresh (login dbInit "a@b.c" "pw" 5000).1 (mkRefreshToken "u1" 5) 5400).2 = true := by decide

example :
    isOk (refresh (refresh (login dbInit "a@b.c" "pw" 5000).1 (mkRefreshToken "u1" 5) 5400).1
      (mkRefreshToken "u1" 5) 900000).2 = true := by decide

example : isOk (raceTwo dbA tokA 5000).1 = true ∧ isOk (raceTwo dbA tokA 5000).2 = true := by decide

example : (refresh (refresh dbA tokA 5000).1 tokA 6000).2 = .error .reuseDetected := by decide

/-! ## General lemmas about the database operations -/

theorem mem_activeFor (db : Db) (uid : String) (nowMs : Nat) (r : TokenRecord) :
    r ∈ activeFor db uid nowMs ↔
      r ∈ db.tokens ∧ r.userId = uid ∧ nowMs < r.expiresAt ∧ r.revokedAt = none := by
  unfold activeFor
  simp [List.mem_filter]

theorem revokeUserAll_userId_revoked (db : Db) (uid : String) (n : Nat) :
    ∀ x ∈ (revokeUserAll db uid n).tokens, x.userId = uid → x.revokedAt = some n := by
  intro x hx hux
  unfold revokeUserAll at hx
  simp only [List.mem_map] at hx
  obtain ⟨y, hy, heq⟩ := hx
  by_cases h : y.userId = uid
  · rw [if_pos h] at heq
    rw [← heq]
  · rw [if_neg h] at heq
    subst heq
    exact absurd hux h

/-- Inverting steps 1-4: a matched decision pins down the subject, the
verify conditions, the type claim, and the matched record. -/
theorem refreshDecide_matched_inv (db : Db) (tok : Token) (n : Nat)
    (rec : TokenRecord) (uid : String)
    (h : refreshDecide db tok n = .matched rec uid) :
    uid = tok.payload.sub ∧ tok.key = JWT_REFRESH_SECRET ∧
      n / 1000 < tok.payload.exp ∧ tok.payload.typ = some "refresh" ∧
      (activeFor db tok.payload.sub n).find? (fun r => bcryptCompare tok r.tokenHash)
        = some rec := by
  unfold refreshDecide verifyTok at h
  by_cases he : tok.payload.exp ≤ n / 1000
  · simp [he] at h
  · by_cases hk : tok.key = JWT_REFRESH_SECRET
    · simp only [hk, he, ne_eq, not_true_eq_false, if_false, if_true, ite_false, ite_true,
        not_false_eq_true] at h
      by_cases ht : tok.payload.typ = some "refresh"
      · simp only [ht, ne_eq, not_true_eq_false, if_false, ite_false] at h
        cases hf : (activeFor db tok.payload.sub n).find?
            (fun r => bcryptCompare tok r.tokenHash) with
        | none => rw [hf] at h; simp at h
        | some r2 =>
          rw [hf] at h
          simp only [Decision.matched.injEq] at h
          obtain ⟨h1, h2⟩ := h
          refine ⟨h2.symm, hk, Nat.lt_of_not_le he, ht, ?_⟩
          rw [h1]
      · simp [ht] at h
    · simp [he, hk] at h

theorem refresh_eq (db : Db) (tok : Token) (n : Nat) :
    refresh db tok n = refreshCommit db (refreshDecide db tok n) n := rfl

theorem refreshCommit_matched_eq (db : Db) (rec : TokenRecord) (uid : String)
    (n : Nat) (u : User)
    (hu : (revokeById db rec.id n).users.find? (fun v => decide (v.id = uid)) = some u) :
    refreshCommit db (.matched rec uid) n =
      (createRecord (revokeById db rec.id n) u.id (mkRefreshToken u.id (n / 1000)) n,
       .ok (mkAccessToken u (n / 1000)) (mkRefreshToken u.id (n / 1000))) := by
  simp only [refreshCommit, hu]

theorem refreshCommit_reuse_eq (db : Db) (uid : String) (n : Nat) :
    refreshCommit db (.reuse uid) n =
      (revokeUserAll db uid n, .error .reuseDetected) := rfl

/-- Inverting a successful `refresh`: it matched a record, revoked it,
found the user, and created a record for the deterministic new refresh
token. -/
theorem refresh_ok_inv (db : Db) (tok : Token) (n : Nat) (a r : Token)
    (h : (refresh db tok n).2 = .ok a r) :
    ∃ rec u,
      refreshDecide db tok n = .matched rec tok.payload.sub ∧
      (revokeById db rec.id n).users.find? (fun v => decide (v.id = tok.payload.sub))
        = some u ∧
      refresh db tok n =
        (createRecord (revokeById db rec.id n) u.id (mkRefreshToken u.id (n / 1000)) n,
         .ok (mkAccessToken u (n / 1000)) (mkRefreshToken u.id (n / 1000))) ∧
      a = mkAccessToken u (n / 1000) ∧ r = mkRefreshToken u.id (n / 1000) := by
  rw [refresh_eq] at h
  cases hd : refreshDecide db tok n with
  | errVerify => rw [hd] at h; simp [refreshCommit] at h
  | errType => rw [hd] at h; simp [refreshCommit] at h
  | reuse uid => rw [hd] at h; simp [refreshCommit] at h
  | matched rec uid =>
    have huid : uid = tok.payload.sub :=
      (refreshDecide_matched_inv db tok n rec uid hd).1
    subst huid
    rw [hd] at h
    cases hu : (revokeById db rec.id n).users.find?
        (fun v => decide (v.id = tok.payload.sub)) with
    | none => simp [refreshCommit, hu] at h
    | some u =>
      rw [refreshCommit_matched_eq db rec tok.payload.sub n u hu] at h
      simp only [RefreshResult.ok.injEq] at h
      obtain ⟨ha, hr⟩ := h
      exact ⟨rec, u, rfl, hu,
        by rw [refresh_eq, hd, refreshCommit_matched_eq db rec tok.payload.sub n u hu],
        ha.symm, hr.symm⟩

/-- Hypothesis packaging: at most one stored digest matches the presented
token (the spec §3 invariant that a token string corresponds to at most
one record via digest match, which holds for stores built from distinct
tokens). -/
def atMostOneMatch (db : Db) (tok : Token) : Prop :=
  ∀ x ∈ db.tokens, bcryptCompare tok x.tokenHash = true →
    ∀ y ∈ db.tokens, bcryptCompare tok y.tokenHash = true → x.id = y.id

/-- After a successful refresh that issued a token different from the
presented one, presenting the old token again (still within its signature
validity) matches no active record, so steps 1-4 decide reuse. -/
theorem refreshDecide_after_ok (db : Db) (tok : Token) (n1 : Nat) (a1 r1 : Token)
    (h1 : (refresh db tok n1).2 = .ok a1 r1)
    (hne : r1 ≠ tok)
    (hU : atMostOneMatch db tok)
    (n2 : Nat) (hexp2 : n2 / 1000 < tok.payload.exp) :
    refreshDecide (refresh db tok n1).1 tok n2 = .reuse tok.payload.sub := by
  obtain ⟨rec, u, hdec, hfu, hpair, ha, hr⟩ := refresh_ok_inv db tok n1 a1 r1 h1
  obtain ⟨-, hkey, -, htyp, hfind⟩ :=
    refreshDecide_matched_inv db tok n1 rec tok.payload.sub hdec
  have hrecactive : rec ∈ activeFor db tok.payload.sub n1 :=
    List.mem_of_find?_eq_some hfind
  have hrecmatch : bcryptCompare tok rec.tokenHash = true := by
    simpa using List.find?_some hfind
  have hrecdb : rec ∈ db.tokens := ((mem_activeFor db _ n1 rec).1 hrecactive).1
  rw [hpair]
  unfold refreshDecide verifyTok
  rw [if_neg (Nat.not_le_of_lt hexp2), if_neg (by simp [hkey])]
  simp only [htyp, ne_eq, not_true_eq_false, if_false, ite_false]
  have hnone : (activeFor
      (createRecord (revokeById db rec.id n1) u.id (mkRefreshToken u.id (n1 / 1000)) n1)
      tok.payload.sub n2).find? (fun r => bcryptCompare tok r.tokenHash) = none := by
    rw [List.find?_eq_none]
    intro x hx
    obtain ⟨hxdb, hxu, hxe, hxrev⟩ := (mem_activeFor _ _ _ x).1 hx
    simp only [createRecord, revokeById, List.mem_append, List.mem_map,
      List.mem_singleton] at hxdb
    rcases hxdb with ⟨y, hy, heq⟩ | hnew
    · by_cases hid : y.id = rec.id
      · rw [if_pos hid] at heq
        rw [← heq] at hxrev
        simp at hxrev
      · rw [if_neg hid] at heq
        subst heq
        intro hmatch
        exact hid (hU y hy (by simpa using hmatch) rec hrecdb hrecmatch)
    · subst hnew
      simp only [bcryptCompare]
      rw [← hr]
      simp only [decide_eq_true_eq]
      exact fun hh => hne hh.symm
  rw [hnone]

/-- Sequential reuse detection: a second `refresh` with the already-spent
token runs the reuse branch, revoking every record of the subject. -/
theorem second_refresh_reuse (db : Db) (tok : Token) (n1 : Nat) (a1 r1 : Token)
    (h1 : (refresh db tok n1).2 = .ok a1 r1)
    (hne : r1 ≠ tok)
    (hU : atMostOneMatch db tok)
    (n2 : Nat) (hexp2 : n2 / 1000 < tok.payload.exp) :
    refresh (refresh db tok n1).1 tok n2 =
      (revokeUserAll (refresh db tok n1).1 tok.payload.sub n2,
       .error .reuseDetected) := by
  rw [refresh_eq, refreshDecide_after_ok db tok n1 a1 r1 h1 hne hU n2 hexp2,
    refreshCommit_reuse_eq]

/-- A refresh token presented while its user has no unrevoked record runs
the reuse branch: every record of the user is revoked (again) and the
request fails with reuse detection. -/
theorem refresh_no_active_reuse (db : Db) (tok : Token) (n : Nat)
    (hk : tok.key = JWT_REFRESH_SECRET)
    (ht : tok.payload.typ = some "refresh")
    (hexp : n / 1000 < tok.payload.exp)
    (hrev : ∀ x ∈ db.tokens, x.userId = tok.payload.sub → x.revokedAt ≠ none) :
    refresh db tok n = (revokeUserAll db tok.payload.sub n, .error .reuseDetected) := by
  rw [refresh_eq]
  have hdec : refreshDecide db tok n = .reuse tok.payload.sub := by
    unfold refreshDecide verifyTok
    rw [if_neg (Nat.not_le_of_lt hexp), if_neg (by simp [hk])]
    simp only [ht, ne_eq, not_true_eq_false, if_false, ite_false]
    have hnone : (activeFor db tok.payload.sub n).find?
        (fun r => bcryptCompare tok r.tokenHash) = none := by
      rw [List.find?_eq_none]
      intro x hx
      obtain ⟨hxdb, hxu, hxe, hxrev⟩ := (mem_activeFor db _ n x).1 hx
      exact absurd hxrev (hrev x hxdb hxu)
    rw [hnone]
  rw [hdec, refreshCommit_reuse_eq]

/-! ## Claim C1 -/

/-- C1, counterexample.  The claim "for every refresh token whose first
`refresh()` call succeeded, any later `refresh()` call presenting the same
token string fails with ReuseDetected" is false on the code: after login
at millisecond 5000, rotating the issued token within the same second
returns the *identical* token string (the payload is deterministic in
`(sub, iat, exp)`), so a later call presenting the same string matches the
newly created record and succeeds again. -/
theorem c1_single_use_counterexample :
    isOk (refresh (login dbInit "a@b.c" "pw" 5000).1 (mkRefreshToken "u1" 5) 5400).2 = true ∧
    isOk (refresh (refresh (login dbInit "a@b.c" "pw" 5000).1 (mkRefreshToken "u1" 5) 5400).1
        (mkRefreshToken "u1" 5) 900000).2 = true := by
  decide

/-- C1, amended: if the first successful `refresh` returned a refresh
token different from the presented one, and at most one stored digest
matches the presented token, then a later `refresh` with the same token
(within its signature validity) fails with ReuseDetected, leaves the
subject with zero unrevoked records, and a subsequent `refresh` with the
newly issued token fails with ReuseDetected as well. -/
theorem c1_single_use_amended
    (db : Db) (tok a1 r1 : Token) (n1 n2 n3 : Nat)
    (h1 : (refresh db tok n1).2 = .ok a1 r1)
    (hne : r1 ≠ tok)
    (hU : atMostOneMatch db tok)
    (hexp2 : n2 / 1000 < tok.payload.exp)
    (hexp3 : n3 / 1000 < r1.payload.exp) :
    (refresh (refresh db tok n1).1 tok n2).2 = .error .reuseDetected ∧
    (∀ x ∈ (refresh (refresh db tok n1).1 tok n2).1.tokens,
        x.userId = tok.payload.sub → x.revokedAt ≠ none) ∧
    (refresh (refresh (refresh db tok n1).1 tok n2).1 r1 n3).2 = .error .reuseDetected := by
  obtain ⟨rec, u, hdec, hfu, hpair, ha, hr⟩ := refresh_ok_inv db tok n1 a1 r1 h1
  have husub : u.id = tok.payload.sub :=
    of_decide_eq_true (by simpa using List.find?_some hfu)
  have h2 := second_refresh_reuse db tok n1 a1 r1 h1 hne hU n2 hexp2
  refine ⟨by rw [h2], ?_, ?_⟩
  · rw [h2]
    intro x hx hxu
    rw [revokeUserAll_userId_revoked _ _ _ x hx hxu]
    simp
  · rw [h2]
    have hrev : ∀ x ∈ (revokeUserAll (refresh db tok n1).1 tok.payload.sub n2).tokens,
        x.userId = r1.payload.sub → x.revokedAt ≠ none := by
      intro x hx hxu
      have hxu2 : x.userId = tok.payload.sub := by
        rw [hxu, hr]
        exact husub
      rw [revokeUserAll_userId_revoked _ _ _ x hx hxu2]
      simp
    rw [refresh_no_active_reuse _ r1 n3 (by rw [hr]; rfl) (by rw [hr]; rfl) hexp3 hrev]

/-- C1, witness for the amended theorem at a concrete scenario. -/
theorem c1_single_use_witness :
    (refresh (refresh dbA tokA 5000).1 tokA 6000).2 = .error .reuseDetected ∧
    (∀ x ∈ (refresh (refresh dbA tokA 5000).1 tokA 6000).1.tokens,
        x.userId = tokA.payload.sub → x.revokedAt ≠ none) ∧
    (refresh (refresh (refresh dbA tokA 5000).1 tokA 6000).1
        (mkRefreshToken "u1" 5) 7000).2 = .error .reuseDetected :=
  c1_single_use_amended dbA tokA (mkAccessToken u0 5) (mkRefreshToken "u1" 5) 5000 6000 7000
    (by decide) (by decide) (by unfold atMostOneMatch; decide) (by decide) (by decide)

/-! ## Claim C2 -/

/-- C2, counterexample.  The claim "given N simultaneous refresh calls
with an identical valid token, exactly one succeeds; every other call
observes the consume step fail (tryConsume)" is false on the code: there
is no `tryConsume` — the revoke is an unconditional `update` — so in the
interleaving where both handlers complete their reads before either
writes, both calls succeed. -/
theorem c2_concurrency_counterexample :
    isOk (raceTwo dbA tokA 5000).1 = true ∧ isOk (raceTwo dbA tokA 5000).2 = true := by
  decide

/-- C2, amended: the revoke in the code is an unconditional update with no
atomic `tryConsume`, so only the *serialized* execution satisfies
exactly-one: when two `refresh` calls with the same valid token run
sequentially (under the hypotheses of the amended C1), the first succeeds
and the second fails with ReuseDetected; an interleaved execution can
instead let both succeed (see the counterexample). -/
theorem c2_concurrency_amended
    (db : Db) (tok a1 r1 : Token) (n1 n2 : Nat)
    (h1 : (refresh db tok n1).2 = .ok a1 r1)
    (hne : r1 ≠ tok)
    (hU : atMostOneMatch db tok)
    (hexp2 : n2 / 1000 < tok.payload.exp) :
    isOk (refresh db tok n1).2 = true ∧
    (refresh (refresh db tok n1).1 tok n2).2 = .error .reuseDetected := by
  refine ⟨by rw [h1]; rfl, ?_⟩
  rw [second_refresh_reuse db tok n1 a1 r1 h1 hne hU n2 hexp2]

/-- C2, witness for the amended theorem at a concrete scenario. -/
theorem c2_concurrency_witness :
    isOk (refresh dbA tokA 5000).2 = true ∧
    (refresh (refresh dbA tokA 5000).1 tokA 6000).2 = .error .reuseDetected :=
  c2_concurrency_amended dbA tokA (mkAccessToken u0 5) (mkRefreshToken "u1" 5) 5000 6000
    (by decide) (by decide) (by unfold atMostOneMatch; decide) (by decide)

/-! ## Claims C3 and C5: storage contents and frame -/

/-- Whether a stored value is a one-way digest rather than a raw value. -/
def isDigest {α : Type} : Stored α → Bool
  | .raw _ => false
  | .bcrypt _ _ => true

/-- Every persisted credential in the database is a bcrypt digest. -/
def allDigest (db : Db) : Prop :=
  ∀ x ∈ db.tokens, isDigest x.tokenHash = true

/-- `db2` retains every record of `db` unchanged except possibly in
`revokedAt`: same id, user, digest and expiry, and nothing deleted. -/
def framePreserved (db db2 : Db) : Prop :=
  ∀ x ∈ db.tokens, ∃ y ∈ db2.tokens,
    y.id = x.id ∧ y.userId = x.userId ∧ y.tokenHash = x.tokenHash ∧
    y.expiresAt = x.expiresAt

theorem framePreserved_refl (db : Db) : framePreserved db db :=
  fun x hx => ⟨x, hx, rfl, rfl, rfl, rfl⟩

theorem framePreserved_trans (d1 d2 d3 : Db)
    (h12 : framePreserved d1 d2) (h23 : framePreserved d2 d3) :
    framePreserved d1 d3 := by
  intro x hx
  obtain ⟨y, hy, e1, e2, e3, e4⟩ := h12 x hx
  obtain ⟨z, hz, f1, f2, f3, f4⟩ := h23 y hy
  exact ⟨z, hz, f1.trans e1, f2.trans e2, f3.trans e3, f4.trans e4⟩

theorem framePreserved_revokeById (db : Db) (rid n : Nat) :
    framePreserved db (revokeById db rid n) := by
  intro x hx
  refine ⟨if x.id = rid then { x with revokedAt := some n } else x, ?_, ?_⟩
  · unfold revokeById
    simp only [List.mem_map]
    exact ⟨x, hx, rfl⟩
  · by_cases h : x.id = rid
    · simp [h]
    · simp [h]

theorem framePreserved_revokeUserAll (db : Db) (uid : String) (n : Nat) :
    framePreserved db (revokeUserAll db uid n) := by
  intro x hx
  refine ⟨if x.userId = uid then { x with revokedAt := some n } else x, ?_, ?_⟩
  · unfold revokeUserAll
    simp only [List.mem_map]
    exact ⟨x, hx, rfl⟩
  · by_cases h : x.userId = uid
    · simp [h]
    · simp [h]

theorem framePreserved_createRecord (db : Db) (uid : String) (tok : Token) (n : Nat) :
    framePreserved db (createRecord db uid tok n) := by
  intro x hx
  refine ⟨x, ?_, rfl, rfl, rfl, rfl⟩
  unfold createRecord
  simp only [List.mem_append]
  exact Or.inl hx

theorem framePreserved_refreshCommit (db : Db) (d : Decision) (n : Nat) :
    framePreserved db (refreshCommit db d n).1 := by
  cases d with
  | errVerify => exact framePreserved_refl db
  | errType => exact framePreserved_refl db
  | reuse uid => exact framePreserved_revokeUserAll db uid n
  | matched rec uid =>
    simp only [refreshCommit]
    cases hu : (revokeById db rec.id n).users.find? (fun u => decide (u.id = uid)) with
    | none => exact framePreserved_revokeById db rec.id n
    | some u =>
      exact framePreserved_trans _ _ _ (framePreserved_revokeById db rec.id n)
        (framePreserved_createRecord _ _ _ _)

theorem allDigest_revokeById (db : Db) (rid n : Nat) (h : allDigest db) :
    allDigest (revokeById db rid n) := by
  intro x hx
  unfold revokeById at hx
  simp only [List.mem_map] at hx
  obtain ⟨y, hy, heq⟩ := hx
  by_cases hc : y.id = rid
  · rw [if_pos hc] at heq
    rw [← heq]
    exact h y hy
  · rw [if_neg hc] at heq
    rw [← heq]
    exact h y hy

theorem allDigest_revokeUserAll (db : Db) (uid : String) (n : Nat) (h : allDigest db) :
    allDigest (revokeUserAll db uid n) := by
  intro x hx
  unfold revokeUserAll at hx
  simp only [List.mem_map] at hx
  obtain ⟨y, hy, heq⟩ := hx
  by_cases hc : y.userId = uid
  · rw [if_pos hc] at heq
    rw [← heq]
    exact h y hy
  · rw [if_neg hc] at heq
    rw [← heq]
    exact h y hy

theorem allDigest_createRecord (db : Db) (uid : String) (tok : Token) (n : Nat)
    (h : allDigest db) : allDigest (createRecord db uid tok n) := by
  intro x hx
  unfold createRecord at hx
  simp only [List.mem_append, List.mem_singleton] at hx
  rcases hx with hx | hx
  · exact h x hx
  · rw [hx]
    rfl

theorem allDigest_refreshCommit (db : Db) (d : Decision) (n : Nat) (h : allDigest db) :
    allDigest (refreshCommit db d n).1 := by
  cases d with
  | errVerify => exact h
  | errType => exact h
  | reuse uid => exact allDigest_revokeUserAll db uid n h
  | matched rec uid =>
    simp only [refreshCommit]
    cases hu : (revokeById db rec.id n).users.find? (fun u => decide (u.id = uid)) with
    | none => exact allDigest_revokeById db rec.id n h
    | some u =>
      exact allDigest_createRecord _ _ _ _ (allDigest_revokeById db rec.id n h)

/-- C3, counterexample.  The claim "in no reachable state does the store
hold the raw refresh token string itself" is false on the code: the §28
in-memory store is a `Set<string>` of raw tokens, and after a login the
very token handed to the client is an element of the store. -/
theorem c3_digest_counterexample :
    (memLogin st0 "a@b.c" "pw" 7).2 = .ok (mkMemAccess u0m 7) (mkMemRefresh "u1" 7) ∧
    mkMemRefresh "u1" 7 ∈ (memLogin st0 "a@b.c" "pw" 7).1.refreshTokens := by
  decide

/-- C3, amended: the database-backed handlers do maintain the digest
invariant — if every stored credential is a bcrypt digest, then after
`login`, `refresh` or `logout` every stored credential is still a bcrypt
digest (new records store `bcrypt.hash(token, 10)`, mutations touch only
`revokedAt`); the raw-token store is the §28 in-memory Set and the
`sessions.refreshToken` column of the drizzle schema. -/
theorem c3_digest_amended (db : Db) (h : allDigest db) :
    (∀ e p n, allDigest (login db e p n).1) ∧
    (∀ tok n, allDigest (refresh db tok n).1) ∧
    (∀ uid body n, allDigest (logout db uid body n).1) := by
  refine ⟨?_, ?_, ?_⟩
  · intro e p n
    unfold login
    cases hf : db.users.find? (fun u => decide (u.email = e)) with
    | none => exact h
    | some u =>
      by_cases hpw : bcryptCompareStr p u.passwordHash = true
      · simp only [hpw, if_true, ite_true]
        exact allDigest_createRecord _ _ _ _ h
      · simp only [Bool.not_eq_true] at hpw
        simp only [hpw, if_false, Bool.false_eq_true, ite_false]
        exact h
  · intro tok n
    exact allDigest_refreshCommit db (refreshDecide db tok n) n h
  · intro uid body n
    cases body with
    | none => exact allDigest_revokeUserAll db uid n h
    | some tok =>
      cases hf : (db.tokens.filter fun r =>
          decide (r.userId = uid ∧ r.revokedAt = none)).find?
          (fun r => bcryptCompare tok r.tokenHash) with
      | none =>
        simp only [logout, hf]
        exact h
      | some rec =>
        simp only [logout, hf]
        exact allDigest_revokeById db rec.id n h

/-- C3, witness for the amended theorem at a concrete database. -/
theorem c3_digest_witness :
    (∀ e p n, allDigest (login dbA e p n).1) ∧
    (∀ tok n, allDigest (refresh dbA tok n).1) ∧
    (∀ uid body n, allDigest (logout dbA uid body n).1) :=
  c3_digest_amended dbA (by unfold allDigest; decide)

/-- C5, counterexample.  The claim "no operation of the core physically
deletes a record from the store" is false on the code: the §28 refresh
route calls `refreshTokens.delete(refreshToken)` — after a successful
rotation the presented token is gone from the store rather than marked
revoked. -/
theorem c5_frame_counterexample :
    (memRefresh stC5 (mkMemRefresh "u1" 0) 5).2 =
      .ok (mkMemAccess u0m 5) (mkMemRefresh "u1" 5) ∧
    mkMemRefresh "u1" 0 ∈ stC5.refreshTokens ∧
    mkMemRefresh "u1" 0 ∉ (memRefresh stC5 (mkMemRefresh "u1" 0) 5).1.refreshTokens := by
  decide

/-- C5, amended: the database-backed handlers do satisfy the frame
property — every record existing before a `refresh`, `login` or `logout`
still exists afterwards with the same id, user, digest and expiry (only
`revokedAt` may have changed, and nothing is deleted); the §28 in-memory
route instead deletes the spent token from its Set. -/
theorem c5_frame_amended (db : Db) :
    (∀ tok n, framePreserved db (refresh db tok n).1) ∧
    (∀ e p n, framePreserved db (login db e p n).1) ∧
    (∀ uid body n, framePreserved db (logout db uid body n).1) := by
  refine ⟨?_, ?_, ?_⟩
  · intro tok n
    exact framePreserved_refreshCommit db (refreshDecide db tok n) n
  · intro e p n
    unfold login
    cases hf : db.users.find? (fun u => decide (u.email = e)) with
    | none => exact framePreserved_refl db
    | some u =>
      by_cases hpw : bcryptCompareStr p u.passwordHash = true
      · simp only [hpw, if_true, ite_true]
        exact framePreserved_createRecord _ _ _ _
      · simp only [Bool.not_eq_true] at hpw
        simp only [hpw, if_false, Bool.false_eq_true, ite_false]
        exact framePreserved_refl db
  · intro uid body n
    cases body with
    | none => exact framePreserved_revokeUserAll db uid n
    | some tok =>
      cases hf : (db.tokens.filter fun r =>
          decide (r.userId = uid ∧ r.revokedAt = none)).find?
          (fun r => bcryptCompare tok r.tokenHash) with
      | none =>
        simp only [logout, hf]
        exact framePreserved_refl db
      | some rec =>
        simp only [logout, hf]
        exact framePreserved_revokeById db rec.id n

/-- C5, witness for the amended theorem at a concrete database. -/
theorem c5_frame_witness :
    (∀ tok n, framePreserved dbA (refresh dbA tok n).1) ∧
    (∀ e p n, framePreserved dbA (login dbA e p n).1) ∧
    (∀ uid body n, framePreserved dbA (logout dbA uid body n).1) :=
  c5_frame_amended dbA

/-! ## Claim C4 -/

theorem authenticate_bearer_eq (t : Token) (nowSec : Nat) :
    authenticate (.bearer t) nowSec =
      match verifyTok t JWT_SECRET nowSec with
      | .ok p => .ok p.sub p.role
      | .error e =>
        if errMessageMentionsExpired e then .errTokenExpired else .errInvalidToken := rfl

/-- C4, counterexample.  The claim "an access token presented to
`refresh()` fails with TokenTypeMismatch" is false on the code: an access
token is signed with `JWT_SECRET`, so `verify(…, JWT_REFRESH_SECRET)`
throws (here on the signature check, the token being unexpired) and the
handler returns the generic "Invalid or expired refresh token" — the
"Invalid token type" branch is never reached.  Likewise `authenticate`
reports the generic invalid-token response for an unexpired refresh
token, having no type-mismatch outcome at all. -/
theorem c4_class_isolation_counterexample :
    (refresh dbA (mkAccessToken u0 0) 1000).2 = .error .invalidOrExpired ∧
    ApiError.invalidOrExpired ≠ ApiError.invalidTokenType ∧
    authenticate (.bearer tokA) 3 = .errInvalidToken ∧
    AuthResult.errInvalidToken ≠ AuthResult.errTokenExpired := by
  decide

/-- C4, amended: a token of one class is indeed never accepted by the
verifier of the other class, but the failure is never TokenTypeMismatch:
an access token presented to `refresh` yields the generic
"Invalid or expired refresh token" error (never the "Invalid token type"
one, that branch being guarded by the refresh-secret signature check),
and a refresh token presented to `authenticate` is never accepted — it
yields the generic invalid-token response while unexpired, and the
distinguished `TOKEN_EXPIRED` response once expired (hono/jwt validates
`exp` before the signature). -/
theorem c4_class_isolation_amended (tok rtok : Token) (db : Db) (n m : Nat)
    (hk : tok.key = JWT_SECRET) (hrk : rtok.key = JWT_REFRESH_SECRET) :
    (refresh db tok n).2 = .error .invalidOrExpired ∧
    (refresh db tok n).2 ≠ .error .invalidTokenType ∧
    (m < rtok.payload.exp → authenticate (.bearer rtok) m = .errInvalidToken) ∧
    (rtok.payload.exp ≤ m → authenticate (.bearer rtok) m = .errTokenExpired) ∧
    (∀ uid role, authenticate (.bearer rtok) m ≠ .ok uid role) := by
  have hra : tok.key ≠ JWT_REFRESH_SECRET := by
    rw [hk]
    decide
  have har : rtok.key ≠ JWT_SECRET := by
    rw [hrk]
    decide
  have h1 : (refresh db tok n).2 = .error .invalidOrExpired := by
    rw [refresh_eq]
    have hd : refreshDecide db tok n = .errVerify := by
      unfold refreshDecide verifyTok
      by_cases hexp : tok.payload.exp ≤ n / 1000
      · rw [if_pos hexp]
      · rw [if_neg hexp, if_pos hra]
    rw [hd]
    rfl
  have h2i : m < rtok.payload.exp → authenticate (.bearer rtok) m = .errInvalidToken := by
    intro hm
    rw [authenticate_bearer_eq]
    have hv : verifyTok rtok JWT_SECRET m = .error .signatureInvalid := by
      unfold verifyTok
      rw [if_neg (Nat.not_le_of_lt hm), if_pos har]
    rw [hv]
    rfl
  have h2e : rtok.payload.exp ≤ m → authenticate (.bearer rtok) m = .errTokenExpired := by
    intro hm
    rw [authenticate_bearer_eq]
    have hv : verifyTok rtok JWT_SECRET m = .error .expired := by
      unfold verifyTok
      rw [if_pos hm]
    rw [hv]
    rfl
  refine ⟨h1, ?_, h2i, h2e, ?_⟩
  · rw [h1]
    simp
  · intro uid role
    by_cases hm : rtok.payload.exp ≤ m
    · rw [h2e hm]
      simp
    · rw [h2i (Nat.lt_of_not_le hm)]
      simp

/-- C4, witness for the amended theorem at concrete tokens. -/
theorem c4_class_isolation_witness :
    (refresh dbA (mkAccessToken u0 0) 1000).2 = .error .invalidOrExpired ∧
    (refresh dbA (mkAccessToken u0 0) 1000).2 ≠ .error .invalidTokenType ∧
    (3 < tokA.payload.exp → authenticate (.bearer tokA) 3 = .errInvalidToken) ∧
    (tokA.payload.exp ≤ 3 → authenticate (.bearer tokA) 3 = .errTokenExpired) ∧
    (∀ uid role, authenticate (.bearer tokA) 3 ≠ .ok uid role) :=
  c4_class_isolation_amended (mkAccessToken u0 0) tokA dbA 1000 3 (by decide) (by decide)

/-! ## Claim C6 -/

/-- C6, counterexample.  The claim "the returned refresh token string is
always different from the token that was presented" is false on the code:
the payload of the new token is the deterministic `(sub, type, iat, exp)` with
no random material, so rotating within the same second as the presented
`iat` of the presented token (here: login at ms 5000, refresh at ms 5400) returns the
identical token. -/
theorem c6_freshness_counterexample :
    (refresh (login dbInit "a@b.c" "pw" 5000).1 (mkRefreshToken "u1" 5) 5400).2 =
      .ok (mkAccessToken u0 5) (mkRefreshToken "u1" 5) := by
  decide

/-- C6, amended: a successful `refresh` returns a refresh token that
differs from the presented one whenever the rotation second differs from
the `iat` of the presented token (the payload being deterministic, this is the
only freshness the code provides). -/
theorem c6_freshness_amended (db : Db) (tok a r : Token) (n : Nat)
    (h : (refresh db tok n).2 = .ok a r)
    (hiat : n / 1000 ≠ tok.payload.iat) :
    r ≠ tok := by
  obtain ⟨rec, u, hdec, hfu, hpair, ha, hr⟩ := refresh_ok_inv db tok n a r h
  intro contra
  exact hiat (by rw [← contra, hr]; rfl)

/-- C6, witness for the amended theorem at a concrete scenario. -/
theorem c6_freshness_witness : mkRefreshToken "u1" 5 ≠ tokA :=
  c6_freshness_amended dbA tokA (mkAccessToken u0 5) (mkRefreshToken "u1" 5) 5000
    (by decide) (by decide)

/-! ## Claim C7 -/

/-- C7: a token whose `expiresAt` lies in the past fails verification
with the Expired error even when its signature is correct, and
`authenticate` surfaces this as the distinguished `TOKEN_EXPIRED`
response, distinct from the other invalid-token responses. -/
theorem c7_expiry (t : Token) (n : Nat)
    (hk : t.key = JWT_SECRET) (he : t.payload.exp < n) :
    verifyTok t JWT_SECRET n = .error .expired ∧
    authenticate (.bearer t) n = .errTokenExpired ∧
    AuthResult.errTokenExpired ≠ AuthResult.errInvalidToken ∧
    AuthResult.errTokenExpired ≠ AuthResult.errMissingHeader := by
  have hv : verifyTok t JWT_SECRET n = .error .expired := by
    unfold verifyTok
    rw [if_pos (Nat.le_of_lt he)]
  refine ⟨hv, ?_, by simp, by simp⟩
  rw [authenticate_bearer_eq, hv]
  rfl

/-- C7, witness: a correctly signed access token one hundred seconds past
its expiry. -/
theorem c7_expiry_witness :
    verifyTok (mkAccessToken u0 0) JWT_SECRET 1000 = .error .expired ∧
    authenticate (.bearer (mkAccessToken u0 0)) 1000 = .errTokenExpired ∧
    AuthResult.errTokenExpired ≠ AuthResult.errInvalidToken ∧
    AuthResult.errTokenExpired ≠ AuthResult.errMissingHeader :=
  c7_expiry (mkAccessToken u0 0) 1000 (by decide) (by decide)

/-! ## Claim C8 -/

theorem logout_some_eq (db : Db) (uid : String) (tok : Token) (n : Nat) :
    logout db uid (some tok) n =
      match (db.tokens.filter fun r =>
          decide (r.userId = uid ∧ r.revokedAt = none)).find?
          (fun r => bcryptCompare tok r.tokenHash) with
      | none => (db, "Logged out successfully")
      | some rec => (revokeById db rec.id n, "Logged out successfully") := rfl

/-- A logout whose token matches no unrevoked record of the user is a
silent no-op. -/
theorem logout_no_match (db : Db) (uid : String) (tok : Token) (m : Nat)
    (hno : ∀ x ∈ db.tokens, x.userId = uid → x.revokedAt = none →
      bcryptCompare tok x.tokenHash = false) :
    logout db uid (some tok) m = (db, "Logged out successfully") := by
  rw [logout_some_eq]
  have hnone : (db.tokens.filter fun r =>
      decide (r.userId = uid ∧ r.revokedAt = none)).find?
      (fun r => bcryptCompare tok r.tokenHash) = none := by
    rw [List.find?_eq_none]
    intro x hx
    rw [List.mem_filter] at hx
    obtain ⟨hxdb, hxp⟩ := hx
    obtain ⟨hxu, hxrev⟩ := of_decide_eq_true hxp
    simp [hno x hxdb hxu hxrev]
  rw [hnone]

/-- C8: logout never returns an error (the response is the 200 message in
every case); with a refresh token matching no unrevoked record it leaves
the store unchanged; and — provided at most one unrevoked record matches
the token — repeating the same logout is a no-op on the state left by the
first call. -/
theorem c8_idempotent_logout (db : Db) (uid : String) (tok : Token) (n n2 : Nat)
    (hU : ∀ x ∈ db.tokens, x.userId = uid → x.revokedAt = none →
        bcryptCompare tok x.tokenHash = true →
        ∀ y ∈ db.tokens, y.userId = uid → y.revokedAt = none →
        bcryptCompare tok y.tokenHash = true → x.id = y.id) :
    (∀ d2 u2 b m, (logout d2 u2 b m).2 = "Logged out successfully") ∧
    ((∀ x ∈ db.tokens, x.userId = uid → x.revokedAt = none →
        bcryptCompare tok x.tokenHash = false) →
      logout db uid (some tok) n = (db, "Logged out successfully")) ∧
    logout (logout db uid (some tok) n).1 uid (some tok) n2
      = ((logout db uid (some tok) n).1, "Logged out successfully") := by
  refine ⟨?_, fun hno => logout_no_match db uid tok n hno, ?_⟩
  · intro d2 u2 b m
    cases b with
    | none => rfl
    | some t2 =>
      cases hf2 : (d2.tokens.filter fun r =>
          decide (r.userId = u2 ∧ r.revokedAt = none)).find?
          (fun r => bcryptCompare t2 r.tokenHash) with
      | none => rw [logout_some_eq, hf2]
      | some rec => rw [logout_some_eq, hf2]
  · apply logout_no_match
    intro x hx hxu hxrev
    cases hf : (db.tokens.filter fun r =>
        decide (r.userId = uid ∧ r.revokedAt = none)).find?
        (fun r => bcryptCompare tok r.tokenHash) with
    | none =>
      have hfirst : logout db uid (some tok) n = (db, "Logged out successfully") := by
        rw [logout_some_eq, hf]
      rw [hfirst] at hx
      have hx2 : x ∈ db.tokens := hx
      have hmemf : x ∈ db.tokens.filter
          (fun r => decide (r.userId = uid ∧ r.revokedAt = none)) := by
        rw [List.mem_filter]
        exact ⟨hx2, by simp [hxu, hxrev]⟩
      have hno2 := List.find?_eq_none.mp hf x hmemf
      simpa using hno2
    | some rec =>
      have hfirst : logout db uid (some tok) n =
          (revokeById db rec.id n, "Logged out successfully") := by
        rw [logout_some_eq, hf]
      rw [hfirst] at hx
      have hx2 : x ∈ (revokeById db rec.id n).tokens := hx
      have hrecf := List.mem_of_find?_eq_some hf
      have hrecmatch : bcryptCompare tok rec.tokenHash = true := by
        simpa using List.find?_some hf
      rw [List.mem_filter] at hrecf
      obtain ⟨hrecdb, hrecp⟩ := hrecf
      obtain ⟨hrecu, hrecrev⟩ := of_decide_eq_true hrecp
      unfold revokeById at hx2
      simp only [List.mem_map] at hx2
      obtain ⟨y, hy, heq⟩ := hx2
      by_cases hid : y.id = rec.id
      · rw [if_pos hid] at heq
        rw [← heq] at hxrev
        simp at hxrev
      · rw [if_neg hid] at heq
        subst heq
        cases hb : bcryptCompare tok y.tokenHash with
        | false => rfl
        | true =>
          exact absurd (hU y hy hxu hxrev hb rec hrecdb hrecu hrecrev hrecmatch) hid

/-- C8, witness at a concrete store with one matching record. -/
theorem c8_idempotent_logout_witness :
    (∀ d2 u2 b m, (logout d2 u2 b m).2 = "Logged out successfully") ∧
    ((∀ x ∈ dbA.tokens, x.userId = "u1" → x.revokedAt = none →
        bcryptCompare tokA x.tokenHash = false) →
      logout dbA "u1" (some tokA) 5000 = (dbA, "Logged out successfully")) ∧
    logout (logout dbA "u1" (some tokA) 5000).1 "u1" (some tokA) 6000
      = ((logout dbA "u1" (some tokA) 5000).1, "Logged out successfully") :=
  c8_idempotent_logout dbA "u1" tokA 5000 6000 (by decide)

/-! ## Claim C9 -/

/-- C9: the placeholder `POST /login` returns `success: true` and the
constant token `"placeholder_token"` for every accepted body, and two
accepted bodies differing only in their password receive identical
responses (no credential is ever consulted). -/
theorem c9_placeholder_login (isDev : Bool) (sec : String) (b1 b2 : LoginBody)
    (_h1 : loginSchemaAccepts b1 = true) (_h2 : loginSchemaAccepts b2 = true)
    (_he : b1.email = b2.email) :
    (loginHandler isDev sec b1).success = true ∧
    (loginHandler isDev sec b1).token = "placeholder_token" ∧
    loginHandler isDev sec b1 = loginHandler isDev sec b2 :=
  ⟨rfl, rfl, rfl⟩

/-- C9, witness: two accepted bodies with the same email and different
passwords. -/
theorem c9_placeholder_login_witness :
    (loginHandler true "secret" { email := "a@b.c", password := "hunter123" }).success = true ∧
    (loginHandler true "secret" { email := "a@b.c", password := "hunter123" }).token
      = "placeholder_token" ∧
    loginHandler true "secret" { email := "a@b.c", password := "hunter123" }
      = loginHandler true "secret" { email := "a@b.c", password := "different1" } :=
  c9_placeholder_login true "secret"
    { email := "a@b.c", password := "hunter123" }
    { email := "a@b.c", password := "different1" }
    (by decide) (by decide) rfl

/-! ## Claim C10 -/

/-- C10: when `JWT_SECRET` is unset or the empty string (and the other
variables validate), `createEnv` succeeds, `env.JWT_SECRET` is the
literal `"secret"`, and `config.jwtSecret` is the same constant. -/
theorem c10_default_jwt_secret (r : RawEnv)
    (hp : (parsePort r.PORT).isSome = true)
    (hn : (parseNodeEnv r.NODE_ENV).isSome = true)
    (hj : r.JWT_SECRET = none ∨ r.JWT_SECRET = some "") :
    ∃ e, parseEnv r = some e ∧ e.JWT_SECRET = "secret" ∧
      (mkConfig e).jwtSecret = "secret" := by
  have hjs : parseJwtSecret r.JWT_SECRET = some "secret" := by
    rcases hj with hj | hj
    · rw [hj]
      rfl
    · rw [hj]
      rfl
  obtain ⟨p, hp2⟩ := Option.isSome_iff_exists.mp hp
  obtain ⟨nv, hn2⟩ := Option.isSome_iff_exists.mp hn
  refine ⟨{ PORT := p, NODE_ENV := nv, JWT_SECRET := "secret" }, ?_, rfl, rfl⟩
  unfold parseEnv
  rw [hp2, hn2, hjs]

/-- C10, witness: the fully unset environment. -/
theorem c10_default_jwt_secret_witness :
    ∃ e, parseEnv { PORT := none, NODE_ENV := none, JWT_SECRET := none } = some e ∧
      e.JWT_SECRET = "secret" ∧ (mkConfig e).jwtSecret = "secret" :=
  c10_default_jwt_secret { PORT := none, NODE_ENV := none, JWT_SECRET := none }
    (by decide) (by decide) (Or.inl rfl)

end ChatAuth
